import Mathlib

/-
  Verification development for the SpectreNet ATC chat server
  (src/SpectreNet.py).

  The Python source is shallowly embedded below.  Python dicts become
  association lists, time.time() becomes an explicit natural-number
  parameter `now`, and the random module's choices that influence the
  control flow (only the taxi runway pick) become explicit parameters.
  Template strings chosen by random.choice never influence control flow
  or state, only reply wording, so replies are modelled by the
  constructor `ReplyKind` carrying the data that the templates would
  interpolate.  All strings are ASCII in the modelled configurations,
  so the ASCII case functions faithfully model Python's str.upper /
  str.lower / str.strip on the relevant inputs.
-/

namespace SpectreNet

/-! ### Python-style string helpers (ASCII semantics) -/

/-- Python truthiness-aware `a or b` for optional strings: `None` and `""` are falsy. -/
def pyOrStr (a b : Option String) : Option String :=
  match a with
  | some s => if s = "" then b else some s
  | none => b

/-- Python `a or b` for lists: an empty list is falsy. -/
def pyOrList (a b : List String) : List String :=
  if a.isEmpty then b else a

/-- Characters Python's str.strip and regex \s treat as whitespace (ASCII range). -/
def pyIsSpace (c : Char) : Bool :=
  c = ' ' || c = '\t' || c = '\n' || c = '\r' || c.toNat = 11 || c.toNat = 12

/-- Python str.strip for ASCII text. -/
def stripStr (s : String) : String :=
  String.mk (((s.data.dropWhile pyIsSpace).reverse.dropWhile pyIsSpace).reverse)

/-- Python str.upper for ASCII text. -/
def upperStr (s : String) : String :=
  String.mk (s.data.map Char.toUpper)

/-- Python str.lower for ASCII text. -/
def lowerStr (s : String) : String :=
  String.mk (s.data.map Char.toLower)

def listPrefixOf (p s : List Char) : Bool :=
  match p, s with
  | [], _ => true
  | _ :: _, [] => false
  | a :: ps, b :: ss => a = b && listPrefixOf ps ss

def listContainsSub (needle : List Char) : List Char → Bool
  | [] => needle.isEmpty
  | c :: rest => listPrefixOf needle (c :: rest) || listContainsSub needle rest

/-- Python `needle in hay` substring test. -/
def strIn (needle hay : String) : Bool :=
  listContainsSub needle.data hay.data

/-- Python str.startswith. -/
def pyStartsWith (s p : String) : Bool :=
  listPrefixOf p.data s.data

/-! ### Association lists standing in for Python dicts -/

def alookup {α β : Type} [DecidableEq α] (k : α) : List (α × β) → Option β
  | [] => none
  | (k1, v1) :: rest => if k = k1 then some v1 else alookup k rest

def setKey {α β : Type} [DecidableEq α] (k : α) (v : β) : List (α × β) → List (α × β)
  | [] => [(k, v)]
  | (k1, v1) :: rest => if k = k1 then (k, v) :: rest else (k1, v1) :: setKey k v rest

/-! ### Channel Bus (get_channel, send_message, fetch_messages) -/

/-- A chat message as stored in a channel's deque. -/
structure Message where
  id : Nat
  text : String
  sender : String
deriving Repr, DecidableEq

/-- Per-frequency storage: `channels[freq]` in the source. -/
structure Channel where
  next_id : Nat
  messages : List Message
  last_active : Nat
deriving Repr, DecidableEq

abbrev Channels := List (Nat × Channel)

def MAX_MESSAGES : Nat := 100

/-- `get_channel(freq)`: create-on-demand with id counter 1, refresh last_active. -/
def get_channel (chs : Channels) (freq : Nat) (now : Nat) : Channels × Channel :=
  match alookup freq chs with
  | some ch =>
    let ch1 := { ch with last_active := now }
    (setKey freq ch1 chs, ch1)
  | none =>
    let ch1 : Channel := { next_id := 1, messages := [], last_active := now }
    (setKey freq ch1 chs, ch1)

/-- Appending to a `deque(maxlen=MAX_MESSAGES)`: oldest entries drop off the front. -/
def appendBounded (ms : List Message) (m : Message) : List Message :=
  let ms1 := ms ++ [m]
  if MAX_MESSAGES < ms1.length then ms1.drop (ms1.length - MAX_MESSAGES) else ms1

/-- Transmit-policy mode of a dedicated channel (tx_policy.mode). -/
inductive TxMode where
  | openMode
  | serverOnly
  | whitelistUuid (allowed : List String)
  | otherMode
deriving Repr, DecidableEq

abbrev ChannelsByFreq := List (Nat × TxMode)

/-- can_transmit_on_frequency: frequencies without a dedicated policy are open;
unknown modes deny. -/
def can_transmit_on_frequency (cbf : ChannelsByFreq) (freq : Nat)
    (sender_uuid : Option String) : Bool :=
  match alookup freq cbf with
  | none => true
  | some TxMode.openMode => true
  | some TxMode.serverOnly => false
  | some (TxMode.whitelistUuid allowed) =>
    match sender_uuid with
    | some u => allowed.contains u
    | none => false
  | some TxMode.otherMode => false

/-- Outcome of the /send endpoint, one constructor per return point. -/
inductive SendOutcome where
  | emptyMessage
  | blocked
  | sent (id : Nat)
deriving Repr, DecidableEq

/-- The /send handler from the input parse onward (the throttled housekeeping
and weather preamble is independent of the request payload and is modelled
separately).  `atcReply` stands for the value of `handle_atc(text, freq, sender)`,
which never reads or writes the channel map. -/
def send_message (cbf : ChannelsByFreq) (chs : Channels) (freq : Nat) (rawText : String)
    (sender : String) (sender_uuid : Option String) (atcReply : Option (String × String))
    (now : Nat) : Channels × SendOutcome :=
  let text := stripStr rawText
  if text = "" then (chs, SendOutcome.emptyMessage)
  else if ¬ can_transmit_on_frequency cbf freq sender_uuid then (chs, SendOutcome.blocked)
  else
    let pr := get_channel chs freq now
    let ch := pr.2
    let msg : Message := { id := ch.next_id, text := text, sender := sender }
    let ch1 : Channel :=
      { ch with messages := appendBounded ch.messages msg, next_id := ch.next_id + 1 }
    let chs2 := setKey freq ch1 pr.1
    match atcReply with
    | none => (chs2, SendOutcome.sent msg.id)
    | some (atext, asender) =>
      let amsg : Message := { id := ch1.next_id, text := atext, sender := asender }
      let ch2 : Channel :=
        { ch1 with messages := appendBounded ch1.messages amsg, next_id := ch1.next_id + 1 }
      (setKey freq ch2 chs2, SendOutcome.sent msg.id)

/-- The /fetch handler: unknown frequency gives no messages, otherwise the
messages with id strictly greater than since_id, in stored order. -/
def fetch_messages (chs : Channels) (freq : Nat) (since_id : Nat) (now : Nat) :
    Channels × List Message :=
  match alookup freq chs with
  | none => (chs, [])
  | some _ =>
    let pr := get_channel chs freq now
    (pr.1, pr.2.messages.filter (fun m => decide (since_id < m.id)))

/-- The /state handler's last_id value. -/
def get_state_last_id (chs : Channels) (freq : Nat) : Nat :=
  match alookup freq chs with
  | none => 0
  | some ch => ch.next_id - 1

/-! ### Reply payload keys of the HTTP endpoints

Each definition lists the JSON keys of the corresponding jsonify(...) payload
in the source, per branch of the handler. -/

def send_response_fields : SendOutcome → List String
  | SendOutcome.emptyMessage => ["error"]
  | SendOutcome.blocked => ["status", "error", "reason"]
  | SendOutcome.sent _ => ["status", "id"]

def fetch_response_fields : Bool → List String
  | true => ["instance_id", "messages"]
  | false => ["instance_id", "messages"]

def state_response_fields : Bool → List String
  | true => ["frequency", "last_id"]
  | false => ["frequency", "last_id"]

def lookup_response_fields : Bool → List String
  | true => ["airport", "frequency", "sender", "metar"]
  | false => ["error"]

/-! ### Channel id invariant under sequential sends -/

/-- The stored message ids form the consecutive block ending at next_id - 1. -/
def channelIdsOk (ch : Channel) : Prop :=
  ch.messages.map (fun m => m.id)
      = List.range' (ch.next_id - ch.messages.length) ch.messages.length
  ∧ ch.messages.length + 1 ≤ ch.next_id
  ∧ ch.messages.length ≤ MAX_MESSAGES
  ∧ (ch.messages.length < MAX_MESSAGES → ch.next_id = ch.messages.length + 1)

def chansOk (chs : Channels) : Prop :=
  ∀ freq ch, alookup freq chs = some ch → channelIdsOk ch

/-- One /send request: the handle_atc result is carried as data since it never
touches the channel map. -/
structure SendReq where
  freq : Nat
  text : String
  sender : String
  sender_uuid : Option String
  atcReply : Option (String × String)
  now : Nat

def runSends (cbf : ChannelsByFreq) : List SendReq → Channels → Channels
  | [], chs => chs
  | r :: rs, chs =>
    runSends cbf rs (send_message cbf chs r.freq r.text r.sender r.sender_uuid r.atcReply r.now).1

/-! ### Configuration model (airports.json / atc_config.json, read-only) -/

/-- One entry of an airport's new-style `runways` list. -/
structure RunwayCfg where
  physical_id : Option String
  rid : Option String
  landing_ends : List String
  takeoff_ends : List String
deriving Repr, DecidableEq

/-- One configured helipad (id plus resolved max_simultaneous, which the
source reads with `int(pad.get("max_simultaneous", 1))`). -/
structure HelipadCfg where
  hid : String
  max_simultaneous : Nat
deriving Repr, DecidableEq

/-- One airport record from ATC_TOWERS.  `runways_old` holds the old-style
plain string list that the `runways` key may contain instead of dicts; a
configuration uses one of the two shapes.  (With new-style dicts present,
the old-style fallbacks of the source would leak a dict into a template;
that corner is not representable here and no claim depends on it.) -/
structure TowerCfg where
  tower_frequency : Option Nat
  frequency : Option Nat
  ground_frequency : Option Nat
  tower_sender : Option String
  ground_sender : Option String
  sender : Option String
  runways : List RunwayCfg
  runways_old : List String
  landings : List String
  departures : List String
  taxiways : List String
  helipads : List HelipadCfg
deriving Repr, DecidableEq

/-- The slices of atc_config.json that the ATC engine reads. -/
structure AtcCfg where
  trigger_phrases : List (String × List String)
  responses : List (String × List String)
  auto_clear : List (String × List String)
  invalid_runway : List (String × List String)
  holds : List (String × List String)
  occupancy_seconds : List (String × Nat)
  sequencing_enabled : Option Bool
  redirects : List (String × List String)
  unknown : List (String × List String)
  emergency_mayday : List String
  emergency_pan : List String
  emergency_generic : List String
  possible_emergency : List String
  fp_triggers : List String
deriving Repr, DecidableEq

def DEFAULT_FREQUENCY : Nat := 16

/-! ### Request classification helpers -/

/-- detect_emergency_type: MAYDAY beats PAN beats GENERIC, "none" otherwise. -/
def detect_emergency_type (cfg : AtcCfg) (text : String) : String :=
  if text = "" then "none"
  else
    let t := lowerStr text
    if cfg.emergency_mayday.any (fun p => strIn (lowerStr p) t) then "mayday"
    else if cfg.emergency_pan.any (fun p => strIn (lowerStr p) t) then "pan"
    else if cfg.emergency_generic.any (fun p => strIn (lowerStr p) t) then "generic"
    else "none"

def sounds_like_possible_emergency (cfg : AtcCfg) (text : String) : Bool :=
  text != "" && cfg.possible_emergency.any (fun p => strIn (lowerStr p) (lowerStr text))

/-- is_helicopter_request: configured keywords in the request text, or a
helicopter-style callsign. -/
def is_helicopter_request (cfg : AtcCfg) (request_text callsign : String) : Bool :=
  let text := lowerStr request_text
  let cs := lowerStr callsign
  ((alookup "helicopter" cfg.trigger_phrases).getD []).any (fun kw => strIn (lowerStr kw) text)
    || pyStartsWith cs "heli" || pyStartsWith cs "helo" || pyStartsWith cs "h-"

/-- is_flight_plan_request: FP_TRIGGERS are stored lowercased at load time in
the source; lowering here at use is equivalent. -/
def is_flight_plan_request (cfg : AtcCfg) (t : String) : Bool :=
  cfg.fp_triggers.any (fun p => lowerStr p != "" && strIn (lowerStr p) (lowerStr t))

/-- Python's `message_text.split(",", 2)`: the first split, or none if no comma. -/
def splitFirstComma : List Char → Option (List Char × List Char)
  | [] => none
  | c :: rest =>
    if c = ',' then some ([], rest)
    else
      match splitFirstComma rest with
      | some (a, b) => some (c :: a, b)
      | none => none

/-- normalize_atc_message: AIRPORT[, CALLSIGN], request text (at most two
splits, so later commas stay in the request text); an omitted or blank
callsign falls back to the sender name. -/
def normalize_atc_message (message_text sender_name : String) :
    Option (String × String × String) :=
  match splitFirstComma message_text.data with
  | none => none
  | some (p0, r1) =>
    let airport_code := upperStr (stripStr (String.mk p0))
    match splitFirstComma r1 with
    | none => some (airport_code, sender_name, stripStr (String.mk r1))
    | some (p1, p2) =>
      let cs := stripStr (String.mk p1)
      some (airport_code, if cs = "" then sender_name else cs, stripStr (String.mk p2))

/-! ### parse_requested_runway

Embedding of `re.search` for
`RUNWAY_RE = r"\b(?:runway|rwy)\s*([0-3]?\d)\s*([LRC])?\b"` (IGNORECASE),
including the backtracking a regex engine performs: the two-digit number is
preferred over one digit, more consumed whitespace over less, and a present
side letter over an absent one, each retried when the final word boundary
fails. -/

def isWordChar (c : Char) : Bool :=
  c.isAlpha || c.isDigit || c = '_'

def lrcChar (c : Char) : Bool :=
  c.toLower = 'l' || c.toLower = 'r' || c.toLower = 'c'

/-- A word boundary between a previous character (word or not) and the rest. -/
def boundaryAfter (prevIsWord : Bool) : List Char → Bool
  | [] => prevIsWord
  | c :: _ => prevIsWord != isWordChar c

/-- Try `([LRC])?\b` after exactly k consumed whitespace characters. -/
def lrcAttempt (rest : List Char) (k : Nat) : Option String :=
  let r := rest.drop k
  let prevIsWord := k = 0
  match r with
  | c :: r2 =>
    if lrcChar c && boundaryAfter true r2 then some (String.mk [c.toUpper])
    else if boundaryAfter prevIsWord r then some "" else none
  | [] => if prevIsWord then some "" else none

/-- Try `\s*([LRC])?\b` greedily: most whitespace first, backtracking down. -/
def lrcTailAt (rest : List Char) : Nat → Option String
  | 0 => lrcAttempt rest 0
  | k + 1 =>
    match lrcAttempt rest (k + 1) with
    | some s => some s
    | none => lrcTailAt rest k

def countWs : List Char → Nat
  | [] => 0
  | c :: r => if pyIsSpace c then countWs r + 1 else 0

def digitVal (c : Char) : Nat := c.toNat - 48

def isDigit03 (c : Char) : Bool := 48 ≤ c.toNat && c.toNat ≤ 51

/-- Match `([0-3]?\d)\s*([LRC])?\b` on the text after the keyword and
whitespace, preferring the two-digit reading. -/
def matchNumTail : List Char → Option (Nat × String)
  | c1 :: c2 :: rest =>
    if isDigit03 c1 && c2.isDigit then
      match lrcTailAt rest (countWs rest) with
      | some side => some (digitVal c1 * 10 + digitVal c2, side)
      | none =>
        if c1.isDigit then
          match lrcTailAt (c2 :: rest) (countWs (c2 :: rest)) with
          | some side => some (digitVal c1, side)
          | none => none
        else none
    else if c1.isDigit then
      match lrcTailAt (c2 :: rest) (countWs (c2 :: rest)) with
      | some side => some (digitVal c1, side)
      | none => none
    else none
  | [c1] =>
    if c1.isDigit then
      match lrcTailAt [] 0 with
      | some side => some (digitVal c1, side)
      | none => none
    else none
  | [] => none

/-- Case-insensitive literal prefix (pattern given lowercase). -/
def ciPrefix (pat s : List Char) : Option (List Char) :=
  match pat, s with
  | [], rest => some rest
  | _ :: _, [] => none
  | p :: ps, c :: cs => if p = c.toLower then ciPrefix ps cs else none

/-- Attempt the whole pattern at one start position (keyword alternation,
then `\s*`, then the number tail). -/
def tryRunwayAt (s : List Char) : Option (Nat × String) :=
  match ciPrefix "runway".data s with
  | some rest =>
    match matchNumTail (rest.dropWhile pyIsSpace) with
    | some r => some r
    | none =>
      match ciPrefix "rwy".data s with
      | some rest2 => matchNumTail (rest2.dropWhile pyIsSpace)
      | none => none
  | none =>
    match ciPrefix "rwy".data s with
    | some rest2 => matchNumTail (rest2.dropWhile pyIsSpace)
    | none => none

/-- re.search: leftmost start position wins; the leading `\b` requires the
previous character to be a non-word character (or the string start). -/
def runwayScan : Bool → List Char → Option (Nat × String)
  | _, [] => none
  | prevIsWord, c :: rest =>
    match (if prevIsWord then none else tryRunwayAt (c :: rest)) with
    | some r => some r
    | none => runwayScan (isWordChar c) rest

/-- f"{num:02d}" for num ≤ 99. -/
def pad2 (n : Nat) : String :=
  String.mk [Char.ofNat (48 + n / 10), Char.ofNat (48 + n % 10)]

/-- parse_requested_runway: None when the pattern does not match or the
number is outside 1..36. -/
def parse_requested_runway (request_text : String) : Option String :=
  match runwayScan false request_text.data with
  | none => none
  | some (num, side) =>
    if num < 1 ∨ 36 < num then none
    else some (pad2 num ++ side)

/-! ### Runway helpers -/

/-- Insertion into a sorted duplicate-free list by code-point order,
modelling Python's `sorted(<set>)`. -/
def insertStr (a : String) : List String → List String
  | [] => [a]
  | b :: rest =>
    if a = b then b :: rest
    else if a < b then a :: b :: rest
    else b :: insertStr a rest

def sortDedupStrs : List String → List String
  | [] => []
  | a :: rest => insertStr a (sortDedupStrs rest)

/-- runway_ends_for_action for "landing": explicit `landings` list if present,
otherwise the union of the runways' landing_ends (uppercased). -/
def landingEndsCfg (tower : TowerCfg) : List String :=
  if !tower.landings.isEmpty then tower.landings.map upperStr
  else (tower.runways.map (fun r => r.landing_ends.map upperStr)).flatten

def takeoffEndsCfg (tower : TowerCfg) : List String :=
  if !tower.departures.isEmpty then tower.departures.map upperStr
  else (tower.runways.map (fun r => r.takeoff_ends.map upperStr)).flatten

/-- runway_ends_for_action: the set of valid end strings per action (the
source caches this; as a list, membership is what matters).  Taxi reuses the
takeoff set. -/
def runway_ends_for_action (tower : TowerCfg) (action : String) : List String :=
  if action = "landing" then landingEndsCfg tower
  else if action = "takeoff" ∨ action = "taxi" then takeoffEndsCfg tower
  else []

/-- `(r.get("physical_id") or r.get("id") or "").strip()` for one runway dict. -/
def physKey (r : RunwayCfg) : String :=
  stripStr ((pyOrStr r.physical_id r.rid).getD "")

/-- The RUNWAY_END_TO_PHYSICAL cache: built by iterating the runways in
order and overwriting, so a later runway sharing an end string wins; runways
with an empty physical key are skipped. -/
def endToPhys (runways : List RunwayCfg) (e : String) : Option String :=
  (runways.reverse.filter (fun r => physKey r != "")).findSome? fun r =>
    if ((r.landing_ends ++ r.takeoff_ends).map upperStr).contains e then some (physKey r)
    else none

/-- physical_id_for_runway_end: cache first, then the fallback scan that
returns the first runway listing the end (its raw physical_id-or-id, which
may be absent). -/
def physical_id_for_runway_end (tower : TowerCfg) (runway_end : String) : Option String :=
  let e := upperStr runway_end
  match endToPhys tower.runways e with
  | some p => some p
  | none =>
    match tower.runways.find? (fun r =>
        ((r.landing_ends.map upperStr).contains e) || ((r.takeoff_ends.map upperStr).contains e)) with
    | some r => pyOrStr r.physical_id r.rid
    | none => none

/-- choose_runway_for_action: with new-style config the first runway offering
an end for the action wins, deterministically; otherwise the old-style plain
lists, first element. -/
def choose_runway_for_action (tower : TowerCfg) (action : String) : String × String :=
  match tower.runways.find? (fun rwy =>
      !(if action = "landing" then rwy.landing_ends
        else if action = "takeoff" then rwy.takeoff_ends else []).isEmpty) with
  | some rwy =>
    let ends := if action = "landing" then rwy.landing_ends
                else if action = "takeoff" then rwy.takeoff_ends else []
    let e := ends.headD ""
    (((pyOrStr (pyOrStr rwy.physical_id rwy.rid) (some e)).getD e), e)
  | none =>
    let choices :=
      if action = "landing" then pyOrList tower.landings tower.runways_old
      else if action = "takeoff" then pyOrList tower.departures tower.runways_old
      else tower.runways_old
    match choices with
    | [] => ("DEFAULT", "")
    | c :: _ => (c, c)

/-! ### Scheduler state (RUNWAY_STATE, PILOT_ASSIGNED_RUNWAY, helipads,
emergencies) -/

/-- A runway occupancy / queue entry (the `entry` dict of handle_atc). -/
structure Occupancy where
  airport : String
  runway : String
  callsign : String
  action : String
  frequency : Nat
  sender : String
  emergency : Bool
deriving Repr, DecidableEq

/-- One RUNWAY_STATE slot. -/
structure RunwaySlot where
  active : Option Occupancy
  queue : List Occupancy
  expires_at : Nat
deriving Repr, DecidableEq

structure EmergencyInfo where
  etype : String
  runway : Option String
  started_at : Nat
deriving Repr, DecidableEq

/-- The global mutable maps handle_atc touches.  Flight-plan bookkeeping
(ACTIVE_FLIGHT_PLANS / FLIGHT_PLAN_ROUTES) is read and written only to pick
reply wording and is outside every claim, so it is not carried here. -/
structure AtcState where
  runwayState : List ((String × String) × RunwaySlot)
  pilotAssigned : List ((String × String) × String)
  helipadOcc : List ((String × String) × Nat)
  emergencies : List ((String × String) × EmergencyInfo)
deriving Repr, DecidableEq

/-- get_runway_state: lazily created empty slot. -/
def get_runway_state (rs : List ((String × String) × RunwaySlot)) (airport runway : String) :
    RunwaySlot :=
  (alookup (airport, runway) rs).getD { active := none, queue := [], expires_at := 0 }

/-- runway_active: an occupant is present and not yet expired. -/
def runway_active (slot : RunwaySlot) (now : Nat) : Bool :=
  slot.active.isSome && decide (now < slot.expires_at)

/-- set_runway_active. -/
def set_runway_active (slot : RunwaySlot) (entry : Occupancy) (seconds now : Nat) : RunwaySlot :=
  { slot with active := some entry, expires_at := now + seconds }

/-- The controller reply, one constructor per return point of handle_atc,
carrying the data the reply templates would interpolate. -/
inductive ReplyKind where
  | redirectToGround (startup : Bool)
  | redirectToTower
  | wrongAirport (freq : Nat) (role : String)
  | flightPlanAck
  | heliHoldAllPadsFull
  | heliAnywhere (pad : String)
  | hold (position : Nat) (activeEmergency : Bool)
  | invalidRunway (requested runway : String)
  | clearance (action runway : String) (helipad : Option String) (emergencyAck : Bool)
  | emergencyAckOnly
  | unknownReply
deriving Repr, DecidableEq

/-- `logical_runway_id or runway or "DEFAULT"` with empty strings falsy. -/
def runwayKeyOf (logical : Option String) (runway : String) : String :=
  (pyOrStr (pyOrStr logical (some runway)) (some "DEFAULT")).getD "DEFAULT"

/-- The occupancy duration handle_atc grants: the emergency_landing entry for
emergency landings (falling back to the landing entry with default 60),
otherwise the action's entry with default 30. -/
def occupancyFor (cfg : AtcCfg) (has_emergency : Bool) (action : String) : Nat :=
  if has_emergency && action = "landing" then
    (alookup "emergency_landing" cfg.occupancy_seconds).getD
      ((alookup action cfg.occupancy_seconds).getD 60)
  else (alookup action cfg.occupancy_seconds).getD 30

/-- The runway-sequencing block of handle_atc (the lines guarded by
SEQUENCING enabled, tower role, landing/takeoff action and not helicopter):
queue-and-hold for normal traffic on an occupied runway, requeue of a
displaced non-emergency occupant, and activation otherwise. -/
def sequencingStep (cfg : AtcCfg) (st : AtcState) (role action : String)
    (is_heli has_emergency : Bool) (airport_code callsign : String)
    (logical : Option String) (runway : String) (channel : Nat) (sender : String)
    (now : Nat) : AtcState × Option ReplyKind :=
  if (cfg.sequencing_enabled.getD true) && role = "tower"
      && (action = "landing" || action = "takeoff") && !is_heli then
    let runway_key := runwayKeyOf logical runway
    let slot := get_runway_state st.runwayState airport_code runway_key
    let occupy := occupancyFor cfg has_emergency action
    let entry : Occupancy :=
      { airport := airport_code, runway := runway, callsign := callsign,
        action := action, frequency := channel, sender := sender,
        emergency := has_emergency }
    let active_is_emergency :=
      match slot.active with
      | some a => a.emergency
      | none => false
    if runway_active slot now then
      if !has_emergency then
        let slot1 := { slot with queue := slot.queue ++ [entry] }
        let position := slot1.queue.length + 1
        ({ st with runwayState := setKey (airport_code, runway_key) slot1 st.runwayState },
          some (ReplyKind.hold position active_is_emergency))
      else
        let slot1 :=
          match slot.active with
          | some a => if !a.emergency then { slot with queue := slot.queue ++ [a] } else slot
          | none => slot
        let slot2 := set_runway_active slot1 entry occupy now
        ({ st with runwayState := setKey (airport_code, runway_key) slot2 st.runwayState }, none)
    else
      let slot2 := set_runway_active slot entry occupy now
      ({ st with runwayState := setKey (airport_code, runway_key) slot2 st.runwayState }, none)
  else (st, none)

/-! ### Runway end resolution (handle_atc, runway selection per action) -/

/-- Is the explicitly requested end valid for the action? (the source's
`requested_runway and requested_runway.upper() in valid`). -/
def requestedValid (tower : TowerCfg) (action : String) (requested : Option String) : Bool :=
  match requested with
  | some rq => (runway_ends_for_action tower action).contains (upperStr rq)
  | none => false

/-- Is the sticky pilot assignment present and valid for the action? (the
source's `assigned and assigned in valid`). -/
def stickyValid (tower : TowerCfg) (action : String)
    (pa : List ((String × String) × String)) (pk : String × String) : Bool :=
  match alookup pk pa with
  | some a => a != "" && (runway_ends_for_action tower action).contains a
  | none => false

/-- The runway-selection block of handle_atc.  Returns (logical runway id,
spoken runway end, updated PILOT_ASSIGNED_RUNWAY map).  `taxiPick` stands for
the random.choice index into the sorted valid set used by the taxi fallback. -/
def resolveRunway (tower : TowerCfg) (action : String) (requested : Option String)
    (pa : List ((String × String) × String)) (pk : String × String) (taxiPick : Nat) :
    Option String × String × List ((String × String) × String) :=
  if action = "landing" ∨ action = "takeoff" then
    if action = "takeoff" then
      if requestedValid tower "takeoff" requested then
        let rq := upperStr ((requested).getD "")
        (physical_id_for_runway_end tower rq, rq, setKey pk rq pa)
      else if stickyValid tower "takeoff" pa pk then
        let a := (alookup pk pa).getD ""
        (physical_id_for_runway_end tower a, a, pa)
      else
        let pr := choose_runway_for_action tower "takeoff"
        (some pr.1, pr.2, if pr.2 != "" then setKey pk pr.2 pa else pa)
    else
      if requestedValid tower "landing" requested then
        let rq := upperStr ((requested).getD "")
        (physical_id_for_runway_end tower rq, rq, setKey pk rq pa)
      else
        let pr := choose_runway_for_action tower "landing"
        (some pr.1, pr.2, if pr.2 != "" then setKey pk pr.2 pa else pa)
  else if action = "taxi" then
    if requestedValid tower "taxi" requested then
      let rq := upperStr ((requested).getD "")
      (none, rq, setKey pk rq pa)
    else if stickyValid tower "taxi" pa pk then
      (none, (alookup pk pa).getD "", pa)
    else
      let sv := sortDedupStrs (runway_ends_for_action tower "taxi")
      let rw := if sv.isEmpty then "" else sv.getD (taxiPick % sv.length) ""
      (none, rw, if rw != "" then setKey pk rw pa else pa)
  else if action = "startup" then (none, "", pa)
  else
    -- Other actions: first of the configured plain lists (the source probes
    -- the `runways` key first; see the TowerCfg note on the dict-shape corner).
    let base := pyOrList tower.runways_old (pyOrList tower.landings tower.departures)
    (none, base.headD "", pa)

/-! ### Helicopter / helipad stage of handle_atc -/

inductive HeliOut where
  | early (r : ReplyKind)
  | pad (helipad_id : Option String)
deriving Repr, DecidableEq

/-- HELIPADS_BY_AIRPORT for one airport: ids uppercased and stripped, blanks
skipped (build_helipad_indexes). -/
def padMap (tower : TowerCfg) : List HelipadCfg :=
  (tower.helipads.map (fun p => { p with hid := upperStr (stripStr p.hid) })).filter
    (fun p => p.hid != "")

/-- find_requested_helipad: first configured pad id occurring in the
uppercased request text. -/
def find_requested_helipad (pads : List HelipadCfg) (request_text : String) : Option String :=
  (pads.find? (fun p => strIn p.hid (upperStr request_text))).map (fun p => p.hid)

/-- The helicopter helipad-selection block (runs for helicopter landing and
takeoff requests at airports with helipads): either an early hold/anywhere
reply or a chosen pad (none means fall through to runway phrasing). -/
def heliStage (tower : TowerCfg) (st : AtcState) (airport_code original : String) : HeliOut :=
  let pads := padMap tower
  if pads.isEmpty then HeliOut.pad none
  else
    let occ := st.helipadOcc
    let free? := fun (p : HelipadCfg) =>
      decide ((alookup (airport_code, p.hid) occ).getD 0 < p.max_simultaneous)
    match find_requested_helipad pads original with
    | some rp =>
      let max_sim := ((pads.find? (fun p => p.hid = rp)).map (fun p => p.max_simultaneous)).getD 1
      if (alookup (airport_code, rp) occ).getD 0 < max_sim then HeliOut.pad (some rp)
      else if 1 < pads.length then
        match pads.find? (fun p => p.hid != rp && free? p) with
        | some p => HeliOut.pad (some p.hid)
        | none => HeliOut.early ReplyKind.heliHoldAllPadsFull
      else HeliOut.early (ReplyKind.heliAnywhere rp)
    | none =>
      match pads.find? free? with
      | some p => HeliOut.pad (some p.hid)
      | none =>
        if pads.length = 1 then
          HeliOut.early (ReplyKind.heliAnywhere (((pads.head?).map (fun p => p.hid)).getD ""))
        else HeliOut.early ReplyKind.heliHoldAllPadsFull

/-! ### Trigger matching and the matched-action body -/

/-- The template pool handle_atc would draw from for an action, after the
emergency remapping of non-runway actions to "landing" and the
emergency-landing pool preference. -/
def poolFor (cfg : AtcCfg) (has_emergency : Bool) (action : String) : List String :=
  let effective_action :=
    if has_emergency && !(action = "landing" || action = "takeoff" || action = "taxi")
    then "landing" else action
  if has_emergency && effective_action = "landing" then
    pyOrList ((alookup "emergency_landing_clearance" cfg.auto_clear).getD [])
      ((alookup "landing" cfg.responses).getD [])
  else (alookup effective_action cfg.responses).getD []

/-- The trigger loop: the body runs (and always returns) for the first
(action, phrase) pair whose phrase occurs in the request text and whose
template pool is nonempty; an empty pool `continue`s past every phrase of
that action, so this is the first action with a matching phrase and a
nonempty pool. -/
def matchedAction (cfg : AtcCfg) (req : String) (has_emergency : Bool) : Option String :=
  (cfg.trigger_phrases.find? (fun ap =>
      ap.2.any (fun p => strIn p req) && !(poolFor cfg has_emergency ap.1).isEmpty)).map
    (fun ap => ap.1)

/-- The body of the trigger loop once an action matched: helipad stage,
runway resolution, emergency bookkeeping, sequencing, invalid-runway
correction, helipad occupancy counters, and the clearance reply. -/
def triggerBody (cfg : AtcCfg) (tower : TowerCfg) (st : AtcState)
    (airport_code callsign original : String) (action : String)
    (has_emergency : Bool) (emergency_type : String) (is_heli : Bool)
    (requested_runway : Option String) (role : String) (channel : Nat) (sender : String)
    (taxiPick : Nat) (now : Nat) : AtcState × Option ReplyKind :=
  let effective_action :=
    if has_emergency && !(action = "landing" || action = "takeoff" || action = "taxi")
    then "landing" else action
  let heliRes :=
    if is_heli && (action = "landing" || action = "takeoff")
    then heliStage tower st airport_code original else HeliOut.pad none
  match heliRes with
  | HeliOut.early r => (st, some r)
  | HeliOut.pad helipad_id =>
    let pk := (airport_code, callsign)
    let res := resolveRunway tower action requested_runway st.pilotAssigned pk taxiPick
    let logical := res.1
    let runway := res.2.1
    let st1 := { st with pilotAssigned := res.2.2 }
    let st2 :=
      if has_emergency && action = "landing" && runway != "" then
        let info : EmergencyInfo :=
          { etype := emergency_type, runway := some runway, started_at := now }
        { st1 with
            emergencies := setKey (airport_code, upperStr callsign) info st1.emergencies }
      else st1
    match sequencingStep cfg st2 role action is_heli has_emergency airport_code callsign
        logical runway channel sender now with
    | (st3, some holdReply) => (st3, some holdReply)
    | (st3, none) =>
      let invalid :=
        if (action = "landing" || action = "takeoff") && !is_heli then
          match requested_runway with
          | some rq0 =>
            if !((runway_ends_for_action tower action).contains (upperStr rq0))
                && runway != ""
                && !((alookup action cfg.invalid_runway).getD []).isEmpty then
              some (ReplyKind.invalidRunway (upperStr rq0) runway)
            else none
          | none => none
        else none
      match invalid with
      | some r => (st3, some r)
      | none =>
        let st4 :=
          match helipad_id with
          | some hp =>
            if is_heli && action = "landing" then
              let occ1 := (alookup (airport_code, hp) st3.helipadOcc).getD 0 + 1
              { st3 with helipadOcc := setKey (airport_code, hp) occ1 st3.helipadOcc }
            else if is_heli && action = "takeoff" then
              let occ1 := (alookup (airport_code, hp) st3.helipadOcc).getD 0 - 1
              { st3 with helipadOcc := setKey (airport_code, hp) occ1 st3.helipadOcc }
            else st3
          | none => st3
        let emergencyAck := has_emergency && role = "tower" && action = "landing"
        (st4, some (ReplyKind.clearance effective_action runway helipad_id emergencyAck))

/-! ### handle_atc -/

/-- handle_atc: parse, classify, redirect or wrong-frequency replies, role
resolution, flight-plan short circuit, trigger matching, and the fallbacks.
`taxiPick` is the injected random index for the taxi runway fallback; other
random draws pick template wording only.  Returns the updated state and the
reply kind (None means no controller reply). -/
def handle_atc (cfg : AtcCfg) (airports : List (String × TowerCfg)) (st : AtcState)
    (message_text : String) (channel : Nat) (sender_name : String)
    (taxiPick : Nat) (now : Nat) : AtcState × Option ReplyKind :=
  match normalize_atc_message message_text sender_name with
  | none => (st, none)
  | some (airport_code, callsign, request_text) =>
    if airport_code = "" ∨ request_text = "" then (st, none)
    else
      let original := request_text
      let req := lowerStr request_text
      let emergency_type0 := detect_emergency_type cfg original
      let has_emergency0 := emergency_type0 != "none"
      -- extra safety pass over the flattened trigger list
      let flat := cfg.emergency_mayday ++ cfg.emergency_pan ++ cfg.emergency_generic
      let has_emergency1 :=
        has_emergency0 || (!flat.isEmpty && flat.any (fun p => strIn (lowerStr p) req))
      let emergency_type1 :=
        if !has_emergency0 && has_emergency1 then "generic" else emergency_type0
      let has_emergency := has_emergency1 || sounds_like_possible_emergency cfg original
      let emergency_type :=
        if !has_emergency1 && has_emergency then "generic" else emergency_type1
      let is_heli := is_helicopter_request cfg original callsign
      let requested_runway := parse_requested_runway req
      match alookup airport_code airports with
      | none => (st, none)
      | some tower =>
        let tower_freq := tower.tower_frequency.getD (tower.frequency.getD DEFAULT_FREQUENCY)
        let ground_freq := tower.ground_frequency.getD tower_freq
        let taxi_phr := (alookup "taxi" cfg.trigger_phrases).getD []
        let startup_phr := (alookup "startup" cfg.trigger_phrases).getD []
        let tko_phr := (alookup "takeoff" cfg.trigger_phrases).getD []
        let ldg_phr := (alookup "landing" cfg.trigger_phrases).getD []
        let is_ground_request := (taxi_phr ++ startup_phr).any (fun p => strIn p req)
        let is_tower_request := (tko_phr ++ ldg_phr).any (fun p => strIn p req)
        if is_ground_request && tower_freq != ground_freq && channel = tower_freq then
          let is_startup := startup_phr.any (fun p => strIn p req)
          let templates :=
            if is_startup then
              pyOrList ((alookup "startup_tower_to_ground" cfg.redirects).getD [])
                ((alookup "tower_to_ground" cfg.redirects).getD [])
            else (alookup "tower_to_ground" cfg.redirects).getD []
          if !templates.isEmpty then (st, some (ReplyKind.redirectToGround is_startup))
          else (st, none)
        else if is_tower_request && tower_freq != ground_freq && channel = ground_freq then
          if !((alookup "ground_to_tower" cfg.redirects).getD []).isEmpty then
            (st, some ReplyKind.redirectToTower)
          else (st, none)
        else if channel != tower_freq && channel != ground_freq && !has_emergency then
          if ((alookup "wrong_airport_frequency" cfg.redirects).getD []).isEmpty then (st, none)
          else if is_tower_request && !is_flight_plan_request cfg original then
            (st, some (ReplyKind.wrongAirport tower_freq "tower"))
          else if is_ground_request && !is_flight_plan_request cfg original then
            (st, some (ReplyKind.wrongAirport ground_freq "ground"))
          else (st, none)
        else
          let role := if channel = ground_freq && ground_freq != tower_freq
                      then "ground" else "tower"
          let sender := if role = "ground" then tower.ground_sender.getD (airport_code ++ " Ground")
                        else tower.tower_sender.getD (airport_code ++ " Tower")
          if is_flight_plan_request cfg req then
            -- flight-plan bookkeeping touches only the excluded FP maps
            (st, some ReplyKind.flightPlanAck)
          else
            match matchedAction cfg req has_emergency with
            | some action =>
              triggerBody cfg tower st airport_code callsign original action has_emergency
                emergency_type is_heli requested_runway role channel sender taxiPick now
            | none =>
              if has_emergency then (st, some ReplyKind.emergencyAckOnly)
              else if !(pyOrList ((alookup role cfg.unknown).getD [])
                          ((alookup "default" cfg.unknown).getD [])).isEmpty then
                (st, some ReplyKind.unknownReply)
              else (st, none)

/-- The slot handle_atc consults for a resolved (logical id, runway end). -/
def slotOf (st : AtcState) (airport_code : String) (logical : Option String)
    (runway : String) : RunwaySlot :=
  get_runway_state st.runwayState airport_code (runwayKeyOf logical runway)

/-- Does an optional reply carry the invalid-runway correction? -/
def isInvalidRunwayReply : Option ReplyKind → Bool
  | some (ReplyKind.invalidRunway _ _) => true
  | _ => false


/-! ### Concrete fixtures used by witnesses and counterexamples -/

def chW2 : Channel :=
  { next_id := 4,
    messages := [{ id := 1, text := "a", sender := "P" },
                 { id := 2, text := "b", sender := "P" },
                 { id := 3, text := "c", sender := "T" }],
    last_active := 6 }

def chsW : Channels := [(120, chW2)]

def reqsW : List SendReq :=
  [{ freq := 120, text := "hello", sender := "P", sender_uuid := none, atcReply := none, now := 5 },
   { freq := 120, text := "world", sender := "P", sender_uuid := none,
     atcReply := some ("ack", "T"), now := 6 }]

def chW6 : Channel :=
  { next_id := 4,
    messages := [{ id := 1, text := "hello", sender := "P" },
                 { id := 2, text := "world", sender := "P" },
                 { id := 3, text := "ack", sender := "T" }],
    last_active := 6 }

/-- A minimal sequencing configuration: takeoff 30s, landing 45s, emergency
landing 120s, sequencing enabled. -/
def cfgSeq : AtcCfg :=
  { trigger_phrases := [("landing", ["request landing"]), ("takeoff", ["request takeoff"])],
    responses := [("landing", ["t1"]), ("takeoff", ["t2"])],
    auto_clear := [], invalid_runway := [("landing", ["u1"])], holds := [],
    occupancy_seconds := [("landing", 45), ("takeoff", 30), ("emergency_landing", 120)],
    sequencing_enabled := some true, redirects := [], unknown := [],
    emergency_mayday := ["mayday"], emergency_pan := [], emergency_generic := [],
    possible_emergency := [], fp_triggers := [] }

/-- A non-emergency occupant holding runway R1 until t=1000. -/
def occA : Occupancy :=
  { airport := "AAAA", runway := "27", callsign := "N1", action := "takeoff",
    frequency := 120, sender := "AAAA Tower", emergency := false }

/-- State with runway R1 of AAAA occupied by occA, empty queue. -/
def stOcc : AtcState :=
  { runwayState := [(("AAAA", "R1"),
      { active := some occA, queue := [], expires_at := 1000 })],
    pilotAssigned := [], helipadOcc := [], emergencies := [] }

/-- Airport with runway ends 09 and 27 valid for both landing and takeoff. -/
def towerC3 : TowerCfg :=
  { tower_frequency := some 120, frequency := none, ground_frequency := none,
    tower_sender := none, ground_sender := none, sender := none,
    runways := [{ physical_id := some "R1", rid := none,
                  landing_ends := ["09", "27"], takeoff_ends := ["09", "27"] }],
    runways_old := [], landings := [], departures := [], taxiways := [], helipads := [] }

/-- Airport ABCD: tower-only frequency 120, one runway (landing end 09,
takeoff end 27, physical id RWY1). -/
def towerC4 : TowerCfg :=
  { tower_frequency := some 120, frequency := none, ground_frequency := none,
    tower_sender := none, ground_sender := none, sender := none,
    runways := [{ physical_id := some "RWY1", rid := none,
                  landing_ends := ["09"], takeoff_ends := ["27"] }],
    runways_old := [], landings := [], departures := [], taxiways := [], helipads := [] }

def airports4 : List (String × TowerCfg) := [("ABCD", towerC4)]

def st0 : AtcState :=
  { runwayState := [], pilotAssigned := [], helipadOcc := [], emergencies := [] }

/-- The occupancy entry the C4 landing scenario reserves. -/
def entry09 : Occupancy :=
  { airport := "ABCD", runway := "09", callsign := "N123", action := "landing",
    frequency := 120, sender := "ABCD Tower", emergency := false }

/-- A helicopter-capable airport used by the C9 witness. -/
def towerC9 : TowerCfg :=
  { tower_frequency := some 130, frequency := none, ground_frequency := none,
    tower_sender := none, ground_sender := none, sender := none,
    runways := [{ physical_id := some "R1", rid := none,
                  landing_ends := ["18"], takeoff_ends := ["18"] }],
    runways_old := [], landings := [], departures := [], taxiways := [],
    helipads := [{ hid := "H1", max_simultaneous := 1 }] }

def airportsC9 : List (String × TowerCfg) := [("EFGH", towerC9)]

/-! ### Lemmas -/

theorem alookup_setKey_self {α β : Type} [DecidableEq α] (k : α) (v : β) (l : List (α × β)) :
    alookup k (setKey k v l) = some v := by
  induction l with
  | nil => simp [alookup, setKey]
  | cons h t ih =>
    obtain ⟨k1, v1⟩ := h
    by_cases hk : k = k1 <;> simp [alookup, setKey, hk, ih]

theorem alookup_setKey_ne {α β : Type} [DecidableEq α] {k k1 : α} (v : β) (l : List (α × β))
    (h : k1 ≠ k) : alookup k1 (setKey k v l) = alookup k1 l := by
  induction l with
  | nil => simp [alookup, setKey, h]
  | cons hd t ih =>
    obtain ⟨k2, v2⟩ := hd
    by_cases hk : k = k2
    · subst hk
      simp [alookup, setKey, h]
    · by_cases hk1 : k1 = k2 <;> simp [alookup, setKey, hk, hk1, ih]

theorem appendBounded_eq_of_lt (ms : List Message) (m : Message)
    (h : ms.length < MAX_MESSAGES) : appendBounded ms m = ms ++ [m] := by
  simp only [appendBounded, List.length_append, List.length_cons, List.length_nil]
  rw [if_neg (by omega)]

theorem appendBounded_eq_of_full (ms : List Message) (m : Message)
    (h : ms.length = MAX_MESSAGES) : appendBounded ms m = (ms ++ [m]).drop 1 := by
  simp only [appendBounded, List.length_append, List.length_cons, List.length_nil]
  rw [if_pos (by omega)]
  congr 1
  omega

theorem channelIdsOk_append (ch : Channel) (m : Message) (la : Nat)
    (hm : m.id = ch.next_id) (h : channelIdsOk ch) :
    channelIdsOk { next_id := ch.next_id + 1,
                   messages := appendBounded ch.messages m,
                   last_active := la } := by
  obtain ⟨h1, h2, h3, h4⟩ := h
  by_cases hc : ch.messages.length < MAX_MESSAGES
  · have hnid : ch.next_id = ch.messages.length + 1 := h4 hc
    have hlen : (appendBounded ch.messages m).length = ch.messages.length + 1 := by
      rw [appendBounded_eq_of_lt _ _ hc]
      simp
    refine ⟨?_, by dsimp only; omega, by dsimp only; omega, fun hx => by dsimp only at hx ⊢; omega⟩
    show (appendBounded ch.messages m).map (fun m => m.id) = _
    dsimp only
    rw [hlen, appendBounded_eq_of_lt _ _ hc, List.map_append]
    have hstart : ch.next_id + 1 - (ch.messages.length + 1) = 1 := by omega
    have hs1 : ch.next_id - ch.messages.length = 1 := by omega
    have hmid : m.id = 1 + 1 * ch.messages.length := by omega
    rw [hstart, List.range'_concat, h1, hs1]
    simp [hmid]
  · have hfull : ch.messages.length = MAX_MESSAGES := by omega
    have hlen : (appendBounded ch.messages m).length = MAX_MESSAGES := by
      rw [appendBounded_eq_of_full _ _ hfull]
      simp [hfull]
    refine ⟨?_, by dsimp only; omega, by dsimp only; omega, fun hx => by dsimp only at hx ⊢; omega⟩
    show (appendBounded ch.messages m).map (fun m => m.id) = _
    dsimp only
    rw [hlen, appendBounded_eq_of_full _ _ hfull, List.map_drop]
    have hcat : (ch.messages ++ [m]).map (fun m => m.id)
        = List.range' (ch.next_id - ch.messages.length) (ch.messages.length + 1) := by
      rw [List.map_append, List.range'_concat, h1]
      have hmid : m.id = (ch.next_id - ch.messages.length) + 1 * ch.messages.length := by omega
      simp [hmid]
    rw [hcat, List.range'_succ, List.drop_one, List.tail_cons]
    congr 1
    dsimp only
    omega

theorem channelIdsOk_fresh (now : Nat) :
    channelIdsOk { next_id := 1, messages := [], last_active := now } := by
  refine ⟨rfl, le_refl 1, by simp [MAX_MESSAGES], fun _ => rfl⟩

theorem chansOk_setKey (chs : Channels) (freq : Nat) (ch : Channel)
    (h : chansOk chs) (hch : channelIdsOk ch) : chansOk (setKey freq ch chs) := by
  intro f c hc
  by_cases hf : f = freq
  · subst hf
    rw [alookup_setKey_self] at hc
    cases hc
    exact hch
  · rw [alookup_setKey_ne _ _ hf] at hc
    exact h f c hc

theorem chansOk_send (cbf : ChannelsByFreq) (chs : Channels) (freq : Nat)
    (text sender : String) (uuid : Option String) (reply : Option (String × String))
    (now : Nat) (h : chansOk chs) :
    chansOk (send_message cbf chs freq text sender uuid reply now).1 := by
  rw [send_message]
  by_cases he : stripStr text = ""
  · simpa [he]
  rw [if_neg he]
  by_cases hcan : can_transmit_on_frequency cbf freq uuid
  · rw [if_neg (by simpa using hcan)]
    have hbase : ∀ ch0 : Channel, channelIdsOk ch0 →
        chansOk (setKey freq ch0 (get_channel chs freq now).1) := by
      intro ch0 hch0
      rcases hl : alookup freq chs with _ | ch
      · rw [get_channel, hl]
        exact chansOk_setKey _ _ _ (chansOk_setKey _ _ _ h (channelIdsOk_fresh now)) hch0
      · rw [get_channel, hl]
        exact chansOk_setKey _ _ _ (chansOk_setKey _ _ _ h (h freq ch hl)) hch0
    have hch : channelIdsOk (get_channel chs freq now).2 := by
      rcases hl : alookup freq chs with _ | ch
      · rw [get_channel, hl]
        exact channelIdsOk_fresh now
      · rw [get_channel, hl]
        exact h freq ch hl
    rcases reply with _ | ⟨atext, asender⟩
    · exact hbase _ (channelIdsOk_append _ _ _ rfl hch)
    · simp only []
      have h1 := channelIdsOk_append (get_channel chs freq now).2
        { id := (get_channel chs freq now).2.next_id, text := stripStr text, sender := sender }
        now rfl hch
      have h2 := channelIdsOk_append
        { next_id := (get_channel chs freq now).2.next_id + 1,
          messages := appendBounded (get_channel chs freq now).2.messages
            { id := (get_channel chs freq now).2.next_id, text := stripStr text, sender := sender },
          last_active := now }
        { id := (get_channel chs freq now).2.next_id + 1, text := atext, sender := asender }
        now rfl h1
      intro f c hc
      by_cases hf : f = freq
      · subst hf
        rw [alookup_setKey_self] at hc
        cases hc
        exact h2
      · rw [alookup_setKey_ne _ _ hf, alookup_setKey_ne _ _ hf] at hc
        rcases hl : alookup freq chs with _ | ch <;> rw [get_channel, hl] at hc <;>
          simp only [] at hc <;> rw [alookup_setKey_ne _ _ hf] at hc <;> exact h f c hc
  · rw [if_pos (by simpa using hcan)]
    exact h

theorem chansOk_runSends (cbf : ChannelsByFreq) (reqs : List SendReq) (chs : Channels)
    (h : chansOk chs) : chansOk (runSends cbf reqs chs) := by
  induction reqs generalizing chs with
  | nil => exact h
  | cons r rs ih => exact ih _ (chansOk_send cbf chs r.freq r.text r.sender r.sender_uuid r.atcReply r.now h)

/-! ### Claim theorems: channel bus, policy gate, payloads -/

/-- C5: a fetch for a frequency with a last-seen id returns, in the original
stored order, exactly the retained messages whose id is strictly greater than
the given id, and the empty sequence when no channel exists for that frequency. -/
theorem c5_fetch_since (chs : Channels) (freq since now : Nat) :
    (alookup freq chs = none → (fetch_messages chs freq since now).2 = []) ∧
    (∀ ch, alookup freq chs = some ch →
      (fetch_messages chs freq since now).2.Sublist ch.messages ∧
      ∀ m, m ∈ (fetch_messages chs freq since now).2 ↔ m ∈ ch.messages ∧ since < m.id) := by
  constructor
  · intro h
    simp [fetch_messages, h]
  · intro ch h
    have hfe : (fetch_messages chs freq since now).2
        = ch.messages.filter (fun m => decide (since < m.id)) := by
      rw [fetch_messages, h, get_channel, h]
    rw [hfe]
    exact ⟨List.filter_sublist _, fun m => by simp [List.mem_filter]⟩

/-- C5 witness: the general theorem applied to a concrete three-message channel. -/
theorem c5_fetch_since_witness :
    (fetch_messages chsW 120 1 9).2.Sublist chW2.messages :=
  ((c5_fetch_since chsW 120 1 9).2 chW2 rfl).1

/-- C6: under sequential sends every channel's retained message ids form a
consecutive, strictly increasing block ending at next_id - 1; until the
capacity bound is reached the block literally starts at id 1, and a fresh
channel starts its id counter at 1. -/
theorem c6_message_ids (cbf : ChannelsByFreq) (reqs : List SendReq) (freq : Nat) (ch : Channel)
    (h : alookup freq (runSends cbf reqs []) = some ch) :
    ch.messages.map (fun m => m.id)
        = List.range' (ch.next_id - ch.messages.length) ch.messages.length
    ∧ ch.messages.length + 1 ≤ ch.next_id
    ∧ (ch.messages.length < MAX_MESSAGES →
        ch.messages.map (fun m => m.id) = List.range' 1 ch.messages.length)
    ∧ (∀ chs2 : Channels, ∀ f now2 : Nat, alookup f chs2 = none →
        (get_channel chs2 f now2).2.next_id = 1) := by
  have hempty : chansOk ([] : Channels) := by
    intro f c hc
    simp [alookup] at hc
  obtain ⟨h1, h2, h3, h4⟩ := chansOk_runSends cbf reqs [] hempty freq ch h
  refine ⟨h1, h2, fun hlt => ?_, fun chs2 f now2 hnone => by rw [get_channel, hnone]⟩
  rw [h1, h4 hlt]
  congr 1
  omega

/-- C6 witness: after two concrete sends (the second with a controller reply)
the stored ids are exactly 1, 2, 3. -/
theorem c6_message_ids_witness :
    chW6.messages.map (fun m => m.id) = List.range' 1 chW6.messages.length :=
  (c6_message_ids [] reqsW 120 chW6 rfl).2.2.1 (by decide)

/-- C7: on a frequency whose policy mode is server_only, every nonempty
human transmission is denied with the distinct blocked outcome (not the
empty-text validation outcome) and no message is appended to any channel. -/
theorem c7_server_only_denies (cbf : ChannelsByFreq) (chs : Channels) (freq : Nat)
    (text sender : String) (uuid : Option String) (reply : Option (String × String)) (now : Nat)
    (hpol : alookup freq cbf = some TxMode.serverOnly)
    (htext : stripStr text ≠ "") :
    (send_message cbf chs freq text sender uuid reply now).2 = SendOutcome.blocked ∧
    SendOutcome.blocked ≠ SendOutcome.emptyMessage ∧
    (send_message cbf chs freq text sender uuid reply now).1 = chs := by
  have hcan : can_transmit_on_frequency cbf freq uuid = false := by
    rw [can_transmit_on_frequency, hpol]
  refine ⟨?_, by simp, ?_⟩ <;> rw [send_message, if_neg htext, if_pos (by simp [hcan])]

/-- C7 witness: a concrete nonempty send on a server_only frequency is blocked,
regardless of the supplied sender uuid. -/
theorem c7_server_only_denies_witness :
    (send_message [(999, TxMode.serverOnly)] [] 999 "hi" "P" (some "u1") none 0).2
      = SendOutcome.blocked :=
  (c7_server_only_denies [(999, TxMode.serverOnly)] [] 999 "hi" "P" (some "u1") none 0 rfl
    (by decide)).1

/-- C8 counterexample: the successful /send reply payload carries no
instance_id key, so not every reply payload of the external interface carries
the server-instance identifier. -/
theorem c8_counterexample :
    ¬ "instance_id" ∈ send_response_fields (SendOutcome.sent 1) := by
  decide

/-- C8 amended: only the /fetch reply payloads (both the unknown-frequency and
the normal branch) carry the server-instance identifier; the /send, /state and
/atc/lookup payloads do not. -/
theorem c8_instance_id_only_on_fetch :
    (∀ known : Bool, "instance_id" ∈ fetch_response_fields known) ∧
    (∀ known : Bool, ¬ "instance_id" ∈ state_response_fields known) ∧
    (∀ known : Bool, ¬ "instance_id" ∈ lookup_response_fields known) ∧
    (∀ o : SendOutcome, ¬ "instance_id" ∈ send_response_fields o) := by
  refine ⟨fun b => ?_, fun b => ?_, fun b => ?_, fun o => ?_⟩
  · cases b <;> decide
  · cases b <;> decide
  · cases b <;> decide
  · cases o with
    | emptyMessage => decide
    | blocked => decide
    | sent i =>
      show ¬ "instance_id" ∈ (["status", "id"] : List String)
      decide

/-- C10: the empty-text validation check runs before the transmit-policy check:
an empty transmission on a server_only frequency yields the validation outcome,
not the policy denial, and in both failure cases the channel map is untouched. -/
theorem c10_validation_before_policy (cbf : ChannelsByFreq) (chs : Channels) (freq : Nat)
    (text sender : String) (uuid : Option String) (reply : Option (String × String)) (now : Nat)
    (hpol : alookup freq cbf = some TxMode.serverOnly) :
    (stripStr text = "" →
      (send_message cbf chs freq text sender uuid reply now).2 = SendOutcome.emptyMessage ∧
      (send_message cbf chs freq text sender uuid reply now).2 ≠ SendOutcome.blocked ∧
      (send_message cbf chs freq text sender uuid reply now).1 = chs) ∧
    (stripStr text ≠ "" →
      (send_message cbf chs freq text sender uuid reply now).2 = SendOutcome.blocked ∧
      (send_message cbf chs freq text sender uuid reply now).1 = chs) := by
  constructor
  · intro he
    refine ⟨?_, ?_, ?_⟩ <;> rw [send_message, if_pos he]
    simp
  · intro he
    have hcan : can_transmit_on_frequency cbf freq uuid = false := by
      rw [can_transmit_on_frequency, hpol]
    constructor <;> rw [send_message, if_neg he, if_pos (by simp [hcan])]

/-- C10 witness: a concrete whitespace-only transmission on a server_only
frequency is reported as the validation outcome with no state change. -/
theorem c10_validation_before_policy_witness :
    (send_message [(999, TxMode.serverOnly)] [] 999 "   " "P" none none 0).2
      = SendOutcome.emptyMessage :=
  ((c10_validation_before_policy [(999, TxMode.serverOnly)] [] 999 "   " "P" none none 0
    rfl).1 (by decide)).1

/-! ### Lemmas for the helicopter frame property -/

theorem sequencingStep_heli (cfg : AtcCfg) (st : AtcState) (role action : String)
    (has_emergency : Bool) (airport_code callsign : String) (logical : Option String)
    (runway : String) (channel : Nat) (sender : String) (now : Nat) :
    sequencingStep cfg st role action true has_emergency airport_code callsign logical runway
      channel sender now = (st, none) := by
  simp [sequencingStep]

theorem triggerBody_heli_runwayState (cfg : AtcCfg) (tower : TowerCfg) (st : AtcState)
    (airport_code callsign original action : String) (has_emergency : Bool)
    (emergency_type : String) (requested_runway : Option String) (role : String)
    (channel : Nat) (sender : String) (taxiPick now : Nat) :
    (triggerBody cfg tower st airport_code callsign original action has_emergency
      emergency_type true requested_runway role channel sender taxiPick now).1.runwayState
      = st.runwayState := by
  rw [triggerBody]
  split
  · rfl
  · simp only [sequencingStep_heli]
    split
    · split_ifs <;> rfl
    · split <;> split_ifs <;> rfl

/-! ### Claim theorems: runway scheduler and router -/

/-- C1 counterexample: an emergency takeoff request preempting an occupied
runway is activated with the takeoff occupancy duration (30s here), not the
configured emergency occupancy duration (120s), so the claim's "emergency
occupancy duration regardless of the previous state" fails for takeoffs. -/
theorem c1_counterexample :
    alookup ("AAAA", "R1")
        (sequencingStep cfgSeq stOcc "tower" "takeoff" false true "AAAA" "M1" (some "R1") "27"
          120 "T" 500).1.runwayState
      = some ({ active := some ({ airport := "AAAA", runway := "27", callsign := "M1",
                                  action := "takeoff", frequency := 120, sender := "T",
                                  emergency := true } : Occupancy),
                queue := [occA], expires_at := 530 } : RunwaySlot)
    ∧ alookup "emergency_landing" cfgSeq.occupancy_seconds = some 120
    ∧ (530 : Nat) ≠ 500 + 120 := by
  refine ⟨rfl, rfl, by decide⟩

/-- C1 (amended): an emergency landing or takeoff request on an occupied slot
immediately becomes the active occupant (displacing the current one, which is
requeued at the tail exactly once when it was not itself an emergency, and
dropped when it was), and the new occupancy duration is the configured
emergency-landing duration for landings but the plain takeoff duration for
takeoffs. -/
theorem c1_emergency_preemption (cfg : AtcCfg) (st : AtcState) (action : String)
    (airport_code callsign : String) (logical : Option String) (runway : String)
    (channel : Nat) (sender : String) (now : Nat)
    (hseq : cfg.sequencing_enabled.getD true = true)
    (hact : action = "landing" ∨ action = "takeoff")
    (hocc : runway_active
      (get_runway_state st.runwayState airport_code (runwayKeyOf logical runway)) now = true) :
    alookup (airport_code, runwayKeyOf logical runway)
        (sequencingStep cfg st "tower" action false true airport_code callsign logical runway
          channel sender now).1.runwayState
      = some { active := some { airport := airport_code, runway := runway, callsign := callsign,
                                action := action, frequency := channel, sender := sender,
                                emergency := true },
               queue := (get_runway_state st.runwayState airport_code
                          (runwayKeyOf logical runway)).queue
                 ++ (match (get_runway_state st.runwayState airport_code
                          (runwayKeyOf logical runway)).active with
                     | some a => if a.emergency then [] else [a]
                     | none => []),
               expires_at := now + occupancyFor cfg true action }
    ∧ (sequencingStep cfg st "tower" action false true airport_code callsign logical runway
        channel sender now).2 = none
    ∧ (action = "takeoff" →
        occupancyFor cfg true action = (alookup "takeoff" cfg.occupancy_seconds).getD 30)
    ∧ (action = "landing" →
        occupancyFor cfg true action
          = (alookup "emergency_landing" cfg.occupancy_seconds).getD
              ((alookup "landing" cfg.occupancy_seconds).getD 60)) := by
  rcases hact with rfl | rfl <;>
  · cases hA : (get_runway_state st.runwayState airport_code (runwayKeyOf logical runway)).active
        with
    | none =>
      exfalso
      simp [runway_active, hA] at hocc
    | some a =>
      cases hEm : a.emergency <;>
        refine ⟨?_, ?_, ?_, ?_⟩ <;>
          simp [sequencingStep, hseq, hocc, hA, hEm, set_runway_active,
            alookup_setKey_self, occupancyFor]

/-- C1 witness: an emergency landing displacing the concrete non-emergency
occupant occA: it is requeued exactly once and the slot expires after the
emergency duration of 120 seconds. -/
theorem c1_emergency_preemption_witness :
    alookup ("AAAA", runwayKeyOf (some "R1") "27")
        (sequencingStep cfgSeq stOcc "tower" "landing" false true "AAAA" "M2" (some "R1") "27"
          120 "T" 500).1.runwayState
      = some ({ active := some ({ airport := "AAAA", runway := "27", callsign := "M2",
                                  action := "landing", frequency := 120, sender := "T",
                                  emergency := true } : Occupancy),
                queue := [occA], expires_at := 500 + 120 } : RunwaySlot) :=
  (c1_emergency_preemption cfgSeq stOcc "landing" "AAAA" "M2" (some "R1") "27" 120 "T" 500
    rfl (Or.inl rfl) (by decide)).1

/-- C2 counterexample: a second non-emergency request on an occupied runway is
queued (queue length 1 after the append) but the hold reply reports position
2, so N is not the queue length immediately after the append. -/
theorem c2_counterexample :
    (sequencingStep cfgSeq stOcc "tower" "takeoff" false false "AAAA" "N2" (some "R1") "27"
        120 "T" 500).2
      = some (ReplyKind.hold 2 false)
    ∧ (alookup ("AAAA", "R1")
        (sequencingStep cfgSeq stOcc "tower" "takeoff" false false "AAAA" "N2" (some "R1") "27"
          120 "T" 500).1.runwayState).map (fun s => s.queue.length)
      = some 1
    ∧ (2 : Nat) ≠ 1 := by
  refine ⟨rfl, rfl, by decide⟩

/-- C2 (amended): a non-emergency landing or takeoff request on an occupied
slot is appended to the tail of the queue, and the hold reply reports
position N equal to the queue length after the append plus one (a 1-based
position that also counts the current runway occupant); the reply carries the
emergency flag of the active occupant for template selection. -/
theorem c2_hold_position (cfg : AtcCfg) (st : AtcState) (action : String)
    (airport_code callsign : String) (logical : Option String) (runway : String)
    (channel : Nat) (sender : String) (now : Nat)
    (hseq : cfg.sequencing_enabled.getD true = true)
    (hact : action = "landing" ∨ action = "takeoff")
    (hocc : runway_active (slotOf st airport_code logical runway) now = true) :
    alookup (airport_code, runwayKeyOf logical runway)
        (sequencingStep cfg st "tower" action false false airport_code callsign logical runway
          channel sender now).1.runwayState
      = some ({ active := (slotOf st airport_code logical runway).active,
                queue := (slotOf st airport_code logical runway).queue
                  ++ [({ airport := airport_code, runway := runway, callsign := callsign,
                         action := action, frequency := channel, sender := sender,
                         emergency := false } : Occupancy)],
                expires_at := (slotOf st airport_code logical runway).expires_at } : RunwaySlot)
    ∧ (sequencingStep cfg st "tower" action false false airport_code callsign logical runway
        channel sender now).2
      = some (ReplyKind.hold
          (((slotOf st airport_code logical runway).queue
            ++ [({ airport := airport_code, runway := runway, callsign := callsign,
                   action := action, frequency := channel, sender := sender,
                   emergency := false } : Occupancy)]).length + 1)
          (match (slotOf st airport_code logical runway).active with
           | some a => a.emergency
           | none => false)) := by
  rcases hact with rfl | rfl <;>
  · rw [slotOf] at hocc
    cases hA : (get_runway_state st.runwayState airport_code (runwayKeyOf logical runway)).active
        with
    | none =>
      exfalso
      simp [runway_active, hA] at hocc
    | some a =>
      refine ⟨?_, ?_⟩ <;>
        simp [sequencingStep, hseq, slotOf, hocc, hA, set_runway_active, alookup_setKey_self]

/-- C2 witness: the concrete occupied-runway scenario; the queue gains one
entry and the reported position is 2. -/
theorem c2_hold_position_witness :
    (sequencingStep cfgSeq stOcc "tower" "takeoff" false false "AAAA" "N2" (some "R1") "27"
        120 "T" 500).2
      = some (ReplyKind.hold 2 false) :=
  (c2_hold_position cfgSeq stOcc "takeoff" "AAAA" "N2" (some "R1") "27" 120 "T" 500
    rfl (Or.inr rfl) (by decide)).2

/-- C3 counterexample: for a landing request with no explicit runway, a
still-valid sticky pilot assignment ("27", valid for landing) is ignored and
the deterministic chooser's end "09" is used instead, contradicting the
claimed three-step rule for landings. -/
theorem c3_counterexample :
    ((runway_ends_for_action towerC3 "landing").contains "27") = true
    ∧ stickyValid towerC3 "landing" [(("ABCD", "N1"), "27")] ("ABCD", "N1") = true
    ∧ (resolveRunway towerC3 "landing" none [(("ABCD", "N1"), "27")] ("ABCD", "N1") 0).2.1
      = "09"
    ∧ ("09" : String) ≠ "27" := by
  refine ⟨rfl, rfl, rfl, by decide⟩

/-- C3 (amended): takeoff resolves explicit valid request (updating the
assignment), else a still-valid sticky assignment, else the deterministic
first configured end; landing resolves explicit valid request, else goes
straight to the deterministic chooser (sticky assignments are not consulted);
taxi resolves explicit valid request, else a still-valid sticky assignment,
else a randomly chosen element of the sorted takeoff-end set. -/
theorem c3_runway_resolution (tower : TowerCfg) (requested : Option String)
    (pa : List ((String × String) × String)) (pk : String × String) (pick : Nat) :
    (requestedValid tower "takeoff" requested = true →
      (resolveRunway tower "takeoff" requested pa pk pick).2.1 = upperStr (requested.getD "") ∧
      (resolveRunway tower "takeoff" requested pa pk pick).2.2
        = setKey pk (upperStr (requested.getD "")) pa) ∧
    (requestedValid tower "takeoff" requested = false →
      stickyValid tower "takeoff" pa pk = true →
      (resolveRunway tower "takeoff" requested pa pk pick).2.1 = (alookup pk pa).getD "" ∧
      (resolveRunway tower "takeoff" requested pa pk pick).2.2 = pa) ∧
    (requestedValid tower "takeoff" requested = false →
      stickyValid tower "takeoff" pa pk = false →
      (resolveRunway tower "takeoff" requested pa pk pick).2.1
        = (choose_runway_for_action tower "takeoff").2) ∧
    (requestedValid tower "landing" requested = true →
      (resolveRunway tower "landing" requested pa pk pick).2.1 = upperStr (requested.getD "")) ∧
    (requestedValid tower "landing" requested = false →
      (resolveRunway tower "landing" requested pa pk pick).2.1
        = (choose_runway_for_action tower "landing").2) ∧
    (requestedValid tower "taxi" requested = true →
      (resolveRunway tower "taxi" requested pa pk pick).2.1 = upperStr (requested.getD "")) ∧
    (requestedValid tower "taxi" requested = false →
      stickyValid tower "taxi" pa pk = true →
      (resolveRunway tower "taxi" requested pa pk pick).2.1 = (alookup pk pa).getD "") ∧
    (requestedValid tower "taxi" requested = false →
      stickyValid tower "taxi" pa pk = false →
      sortDedupStrs (runway_ends_for_action tower "taxi") ≠ [] →
      (resolveRunway tower "taxi" requested pa pk pick).2.1
        ∈ sortDedupStrs (runway_ends_for_action tower "taxi")) := by
  refine ⟨fun h1 => ?_, fun h1 h2 => ?_, fun h1 h2 => ?_, fun h1 => ?_, fun h1 => ?_,
    fun h1 => ?_, fun h1 h2 => ?_, fun h1 h2 h3 => ?_⟩
  · constructor <;> simp [resolveRunway, h1]
  · constructor <;> simp [resolveRunway, h1, h2]
  · simp [resolveRunway, h1, h2]
  · simp [resolveRunway, h1]
  · simp [resolveRunway, h1]
  · simp [resolveRunway, h1]
  · simp [resolveRunway, h1, h2]
  · simp [resolveRunway, h1, h2]
    have hlen : 0 < (sortDedupStrs (runway_ends_for_action tower "taxi")).length :=
      List.length_pos.mpr h3
    have hlt : pick % (sortDedupStrs (runway_ends_for_action tower "taxi")).length
        < (sortDedupStrs (runway_ends_for_action tower "taxi")).length :=
      Nat.mod_lt _ hlen
    rw [List.getElem?_eq_getElem hlt, if_neg h3]
    exact List.getElem_mem hlt

/-- C3 witness: the landing branch of the amended rule at the concrete
airport: with no explicit request the chooser's end is used even though a
valid sticky assignment exists. -/
theorem c3_runway_resolution_witness :
    (resolveRunway towerC3 "landing" none [(("ABCD", "N1"), "27")] ("ABCD", "N1") 0).2.1
      = (choose_runway_for_action towerC3 "landing").2 :=
  (c3_runway_resolution towerC3 none [(("ABCD", "N1"), "27")] ("ABCD", "N1") 0).2.2.2.2.1 rfl

/-- C4 counterexample: the landing request naming runway 99 yields a normal
clearance (on the resolved end 09), not an "unable" correction: 99 cannot be
produced by the runway regex, so no runway constraint is extracted at all. -/
theorem c4_counterexample :
    isInvalidRunwayReply
      (handle_atc cfgSeq airports4 st0 "ABCD, N123, request landing runway 99" 120 "PILOT"
        0 1000).2 = false
    ∧ (handle_atc cfgSeq airports4 st0 "ABCD, N123, request landing runway 99" 120 "PILOT"
        0 1000).2
      = some (ReplyKind.clearance "landing" "09" none false) := by
  refine ⟨rfl, rfl⟩

/-- C4 (amended): "runway 99" does not parse as a runway token (only 01..36,
optionally suffixed L/R/C, parse), so the request is handled as if no runway
was named: a normal clearance on the resolved valid end 09, which is
reserved.  The "unable, use <valid-end>" correction arises for a parseable
but unconfigured end such as runway 18, and the scheduling still reserves the
resolved valid end in that case too. -/
theorem c4_invalid_runway_correction :
    parse_requested_runway (lowerStr "request landing runway 99") = none
    ∧ (handle_atc cfgSeq airports4 st0 "ABCD, N123, request landing runway 99" 120 "PILOT"
        0 1000).2
      = some (ReplyKind.clearance "landing" "09" none false)
    ∧ alookup ("ABCD", "RWY1")
        (handle_atc cfgSeq airports4 st0 "ABCD, N123, request landing runway 99" 120 "PILOT"
          0 1000).1.runwayState
      = some ({ active := some entry09, queue := [], expires_at := 1045 } : RunwaySlot)
    ∧ parse_requested_runway (lowerStr "request landing runway 18") = some "18"
    ∧ (handle_atc cfgSeq airports4 st0 "ABCD, N123, request landing runway 18" 120 "PILOT"
        0 1000).2
      = some (ReplyKind.invalidRunway "18" "09")
    ∧ alookup ("ABCD", "RWY1")
        (handle_atc cfgSeq airports4 st0 "ABCD, N123, request landing runway 18" 120 "PILOT"
          0 1000).1.runwayState
      = some ({ active := some entry09, queue := [], expires_at := 1045 } : RunwaySlot) := by
  refine ⟨rfl, rfl, rfl, rfl, rfl, rfl⟩

/-- C9: a transmission classified as a helicopter request never modifies any
RunwaySlot state: whatever else handle_atc does (helipad counters, pilot
assignments, emergency records, replies), RUNWAY_STATE is left unchanged. -/
theorem c9_helicopter_frame (cfg : AtcCfg) (airports : List (String × TowerCfg)) (st : AtcState)
    (message_text : String) (channel : Nat) (sender_name : String) (taxiPick now : Nat)
    (hheli : ∀ p : String × String × String,
        normalize_atc_message message_text sender_name = some p →
        is_helicopter_request cfg p.2.2 p.2.1 = true) :
    (handle_atc cfg airports st message_text channel sender_name taxiPick now).1.runwayState
      = st.runwayState := by
  rw [handle_atc]
  cases hn : normalize_atc_message message_text sender_name with
  | none => rfl
  | some p =>
    obtain ⟨a, c, r⟩ := p
    have hh : is_helicopter_request cfg r c = true := hheli (a, c, r) hn
    simp only []
    split
    · rfl
    · rw [hh]
      repeat' split
      all_goals first
        | rfl
        | exact triggerBody_heli_runwayState cfg _ st a c r _ _ _ _ _ _ _ taxiPick now

/-- C9 witness: a concrete helicopter landing request (callsign HELI1) at a
helipad airport leaves the occupied runway map stOcc.runwayState untouched. -/
theorem c9_helicopter_frame_witness :
    (handle_atc cfgSeq airportsC9 stOcc "EFGH, HELI1, request landing" 130 "PILOT"
        0 500).1.runwayState
      = stOcc.runwayState :=
  c9_helicopter_frame cfgSeq airportsC9 stOcc "EFGH, HELI1, request landing" 130 "PILOT" 0 500
    (fun p h => by
      have h3 : ("EFGH", "HELI1", "request landing") = p := Option.some.inj h
      rw [← h3]
      rfl)

end SpectreNet
